import Mathlib

/-!
Shallow embedding of the transfer-learning toolkit's dataset adapters and
model-factory surface, with theorems checking the natural-language
specification against the code.

Sources embedded:
* `tlt/datasets/image_classification/tf_custom_image_classification_dataset.py`
  (`TFCustomImageClassificationDataset.__init__` and `.preprocess`)
* `tlt/datasets/image_classification/torchvision_image_classification_dataset.py`
  (`TorchvisionImageClassificationDataset.__init__`)
* the model-factory behaviour exercised by `tests/tensorflow/unit/test_models.py`
  (the factory itself is not part of the sources, so it is modelled from the
  specification, as marked on each such definition).
-/

/-! ## TensorFlow custom image classification dataset -/

/-- A transformation applied to a `tf.data.Dataset` by `preprocess`.
`mapResizeRescale i` stands for `.map(preprocess_image)` where
`preprocess_image` is `tf.image.resize_with_pad(image, i, i)` followed by the
`Rescaling(1/255)` normalization layer; the other constructors stand for
`.cache()`, `.batch(b)` and `.prefetch(tf.data.AUTOTUNE)`. -/
inductive TFOp where
  | mapResizeRescale (image_size : Int)
  | cache
  | batch (batch_size : Int)
  | prefetch
  deriving DecidableEq, Repr

/-- A `tf.data.Dataset` value, modelled by the list of transformations that
have been applied to it, in order.  Datasets reaching `preprocess` in this
code base come from `tf.keras.utils.image_dataset_from_directory`, which
raises on an empty directory, so datasets are modelled as truthy
(non-empty) Python objects. -/
structure TFData where
  ops : List TFOp
  deriving DecidableEq, Repr

/-- The dictionary stored in `self._preprocessed` after a successful
`preprocess(image_size, batch_size)` call. -/
structure PreprocInfo where
  image_size : Int
  batch_size : Int
  deriving DecidableEq, Repr

/-- The mutable state of a `TFCustomImageClassificationDataset` that
`preprocess` reads and writes: the four split attributes and the
`_preprocessed` flag (`none` models Python `None`). -/
structure TFState where
  dataset : Option TFData
  train_subset : Option TFData
  validation_subset : Option TFData
  test_subset : Option TFData
  preprocessed : Option PreprocInfo
  deriving DecidableEq, Repr

/-- A Python value passed where an `int` is expected: `preprocess` checks
`isinstance(x, int)`, so a non-integer argument is representable. -/
inductive PyNum where
  | int (n : Int)
  | nonInt
  deriving DecidableEq, Repr

/-- `isinstance(x, int) and x >= 1`, the validity test `preprocess` applies
to `batch_size` and `image_size` (the code raises when
`not isinstance(x, int) or x < 1`). -/
def PyNum.isPosInt : PyNum → Bool
  | .int n => 1 ≤ n
  | .nonInt => false

/-- The integer payload of a `PyNum` (only used after `isPosInt` passed). -/
def PyNum.toInt : PyNum → Int
  | .int n => n
  | .nonInt => 0

/-- Python `str({'image_size': i, 'batch_size': b})`, as interpolated into
the "already been preprocessed" error message. -/
def formatPreprocessed (p : PreprocInfo) : String :=
  "\x7b\x27image_size\x27: " ++ toString p.image_size ++
    ", \x27batch_size\x27: " ++ toString p.batch_size ++ "\x7d"

/-- The body of the `for subset in subsets` loop for one split: when
`self._preprocessed` is falsy, `.map(preprocess_image)` then `.cache()` are
applied, and then `.batch(batch_size)` and `.prefetch(AUTOTUNE)`
unconditionally. -/
def preprocessSplit (pre : Option PreprocInfo) (image_size batch_size : Int)
    (d : TFData) : TFData :=
  let d1 : TFData :=
    if pre = none then
      { ops := d.ops ++ [TFOp.mapResizeRescale image_size, TFOp.cache] }
    else d
  { ops := d1.ops ++ [TFOp.batch batch_size, TFOp.prefetch] }

/-- The loop over `split_list = ['_dataset', '_train_subset',
'_validation_subset', '_test_subset']`: each attribute whose value is truthy
(`getattr(self, s, None)`) is transformed in place by `preprocessSplit`, in
the source's order. -/
def TFState.applyToSplits (s : TFState) (image_size batch_size : Int) : TFState :=
  let s1 := match s.dataset with
    | some d => { s with dataset := some (preprocessSplit s.preprocessed image_size batch_size d) }
    | none => s
  let s2 := match s1.train_subset with
    | some d => { s1 with train_subset := some (preprocessSplit s1.preprocessed image_size batch_size d) }
    | none => s1
  let s3 := match s2.validation_subset with
    | some d => { s2 with validation_subset := some (preprocessSplit s2.preprocessed image_size batch_size d) }
    | none => s2
  match s3.test_subset with
    | some d => { s3 with test_subset := some (preprocessSplit s3.preprocessed image_size batch_size d) }
    | none => s3

/-- `TFCustomImageClassificationDataset.preprocess(image_size, batch_size)`.
An error result carries the raised `ValueError`'s message together with the
state of the object at the moment of the raise (Python exceptions leave the
object in whatever state it had). -/
def TFState.preprocess (s : TFState) (image_size batch_size : PyNum) :
    Except (String × TFState) TFState :=
  match s.preprocessed with
  | some p =>
    .error ("Data has already been preprocessed: " ++ formatPreprocessed p, s)
  | none =>
    if !batch_size.isPosInt then
      .error ("batch_size should be an positive integer", s)
    else if !image_size.isPosInt then
      .error ("image_size should be an positive integer", s)
    else if !(s.dataset.isSome || s.train_subset.isSome ||
              s.validation_subset.isSome || s.test_subset.isSome) then
      .error ("Unable to preprocess, because the dataset hasn\x27t been defined.", s)
    else
      let s2 := s.applyToSplits image_size.toInt batch_size.toInt
      .ok { s2 with preprocessed := some ⟨image_size.toInt, batch_size.toInt⟩ }

/-- A freshly constructed dataset state: `_dataset` set, no subsets, not
preprocessed. -/
def sFresh : TFState :=
  { dataset := some ⟨[]⟩, train_subset := none, validation_subset := none,
    test_subset := none, preprocessed := none }

/-- A state on which `preprocess(224, 32)` has already completed once. -/
def sDone : TFState :=
  { dataset := some ⟨[TFOp.mapResizeRescale 224, TFOp.cache, TFOp.batch 32, TFOp.prefetch]⟩,
    train_subset := none, validation_subset := none,
    test_subset := none, preprocessed := some ⟨224, 32⟩ }

/-- C1: on any `TFCustomImageClassificationDataset` state, `preprocess`
raises a `ValueError` when preprocessing has already completed once
(`_preprocessed` is set), raises when no dataset or subset is defined, and
otherwise returns normally for a valid (positive integer) `image_size` and
`batch_size`. -/
theorem preprocess_raise_conditions (s : TFState) (i b : PyNum) :
    (s.preprocessed.isSome → ∃ e, s.preprocess i b = .error e) ∧
    ((s.dataset = none ∧ s.train_subset = none ∧ s.validation_subset = none ∧
        s.test_subset = none) → ∃ e, s.preprocess i b = .error e) ∧
    (s.preprocessed = none →
      (s.dataset.isSome ∨ s.train_subset.isSome ∨ s.validation_subset.isSome ∨
        s.test_subset.isSome) →
      i.isPosInt → b.isPosInt → ∃ s2, s.preprocess i b = .ok s2) := by
  obtain ⟨d, t, v, te, p⟩ := s
  refine ⟨?_, ?_, ?_⟩
  · intro hp
    cases p with
    | none => simp at hp
    | some p0 => exact ⟨_, rfl⟩
  · rintro ⟨hd, ht, hv, hte⟩
    subst hd ht hv hte
    cases p with
    | some p0 => exact ⟨_, rfl⟩
    | none =>
      simp only [TFState.preprocess]
      by_cases hb : b.isPosInt
      · by_cases hi : i.isPosInt
        · simp [hb, hi]
        · simp [hb, hi]
      · simp [hb]
  · intro hp hdef hi hb
    simp only at hp
    subst hp
    simp only [TFState.preprocess, hi, hb, Bool.not_true]
    have hor : (d.isSome || t.isSome || v.isSome || te.isSome) = true := by
      rcases hdef with h | h | h | h <;> simp_all
    simp [hor]

/-- Witness for C1: a fresh state preprocesses successfully, and an
already-preprocessed state raises. -/
theorem preprocess_raise_conditions_witness :
    (∃ s2, sFresh.preprocess (.int 224) (.int 32) = .ok s2) ∧
    (∃ e, sDone.preprocess (.int 224) (.int 32) = .error e) :=
  ⟨(preprocess_raise_conditions sFresh (.int 224) (.int 32)).2.2 rfl
      (Or.inl rfl) (by decide) (by decide),
   (preprocess_raise_conditions sDone (.int 224) (.int 32)).1 rfl⟩

/-- C3: on the first successful `preprocess(image_size, batch_size)` call,
every non-None split has, exactly once and in this order, the
resize-with-pad-to-`image_size`-plus-1/255-rescale map applied, then
`cache`, then `batch(batch_size)`, then `prefetch`, and the preprocessing
info becomes `{'image_size': image_size, 'batch_size': batch_size}`. -/
theorem preprocess_first_call_transforms (s : TFState) (i b : Int)
    (hpre : s.preprocessed = none) (hi : 1 ≤ i) (hb : 1 ≤ b)
    (hdef : s.dataset.isSome ∨ s.train_subset.isSome ∨
      s.validation_subset.isSome ∨ s.test_subset.isSome) :
    s.preprocess (.int i) (.int b) = .ok
      { dataset := s.dataset.map (fun d =>
          ⟨d.ops ++ [TFOp.mapResizeRescale i, TFOp.cache, TFOp.batch b, TFOp.prefetch]⟩),
        train_subset := s.train_subset.map (fun d =>
          ⟨d.ops ++ [TFOp.mapResizeRescale i, TFOp.cache, TFOp.batch b, TFOp.prefetch]⟩),
        validation_subset := s.validation_subset.map (fun d =>
          ⟨d.ops ++ [TFOp.mapResizeRescale i, TFOp.cache, TFOp.batch b, TFOp.prefetch]⟩),
        test_subset := s.test_subset.map (fun d =>
          ⟨d.ops ++ [TFOp.mapResizeRescale i, TFOp.cache, TFOp.batch b, TFOp.prefetch]⟩),
        preprocessed := some ⟨i, b⟩ } := by
  obtain ⟨d, t, v, te, p⟩ := s
  simp only at hpre
  subst hpre
  have hi' : PyNum.isPosInt (.int i) = true := by simp [PyNum.isPosInt, hi]
  have hb' : PyNum.isPosInt (.int b) = true := by simp [PyNum.isPosInt, hb]
  have hor : (d.isSome || t.isSome || v.isSome || te.isSome) = true := by
    rcases hdef with h | h | h | h <;> simp_all
  simp only [TFState.preprocess, hi', hb', hor, Bool.not_true]
  cases d <;> cases t <;> cases v <;> cases te <;>
    simp_all [TFState.applyToSplits, preprocessSplit, PyNum.toInt]

/-- Witness for C3: the fresh state's `_dataset` receives exactly
map/cache/batch/prefetch and the info dictionary is recorded. -/
theorem preprocess_first_call_transforms_witness :
    sFresh.preprocess (.int 224) (.int 32) = .ok
      { dataset := some ⟨[TFOp.mapResizeRescale 224, TFOp.cache, TFOp.batch 32, TFOp.prefetch]⟩,
        train_subset := none, validation_subset := none, test_subset := none,
        preprocessed := some ⟨224, 32⟩ } :=
  (preprocess_first_call_transforms sFresh 224 32 rfl (by decide) (by decide)
      (Or.inl rfl)).trans rfl

/-- C10: whenever `preprocess` raises, the raise happens before any split is
modified: the state carried by the exception is exactly the state at entry. -/
theorem preprocess_error_leaves_state (s : TFState) (i b : PyNum)
    (m : String) (s2 : TFState)
    (h : s.preprocess i b = .error (m, s2)) : s2 = s := by
  obtain ⟨d, t, v, te, p⟩ := s
  cases p with
  | some p0 =>
    simp only [TFState.preprocess] at h
    exact (Prod.mk.injEq _ _ _ _ ▸ (Except.error.injEq _ _ ▸ h)).2.symm ▸ rfl
  | none =>
    simp only [TFState.preprocess] at h
    by_cases hb : PyNum.isPosInt b <;> by_cases hi : PyNum.isPosInt i <;>
      simp_all <;> split at h <;> simp_all

/-- Witness for C10: an invalid batch size raises and the carried state is
the entry state. -/
theorem preprocess_error_leaves_state_witness :
    sFresh.preprocess (.int 224) (.int 0) =
      .error ("batch_size should be an positive integer", sFresh) ∧
    sFresh = sFresh :=
  ⟨rfl, preprocess_error_leaves_state sFresh (.int 224) (.int 0)
      "batch_size should be an positive integer" sFresh rfl⟩

/-! ## TFCustomImageClassificationDataset constructor -/

/-- An exception raised by `TFCustomImageClassificationDataset.__init__`. -/
inductive TFError where
  | fileNotFound (msg : String)
  | valueError (msg : String)
  deriving DecidableEq, Repr

/-- `os.path.basename`: the part of the path after the last slash. -/
def basename (path : String) : String :=
  ((path.splitOn "/").getLast?).getD path

/-- The object produced by a successful
`TFCustomImageClassificationDataset.__init__`: the `_info` dictionary
fields, the class names read from the native dataset, the split/preprocess
state, and `_validation_type`. -/
structure TFInitState where
  info_name : String
  info_dataset_dir : String
  info_color_mode : String
  class_names : List String
  state : TFState
  validation_type : String
  deriving DecidableEq, Repr

/-- The split/preprocess state right after construction: `_dataset` is the
freshly loaded dataset with no transformations, the three subsets are
`None`, and `_preprocessed` is `None`. -/
def freshTFState : TFState :=
  { dataset := some ⟨[]⟩, train_subset := none, validation_subset := none,
    test_subset := none, preprocessed := none }

/-- `TFCustomImageClassificationDataset.__init__(dataset_dir, dataset_name,
color_mode, ...)`.  `dirExists` models `os.path.exists(dataset_dir)`; `ctor`
models the call `tf.keras.utils.image_dataset_from_directory(...,
color_mode=color_mode)`, an external call that either raises a `ValueError`
(message returned in `.error`) or yields a dataset whose `class_names` it
returns.  The source performs no validation of `color_mode` of its own: the
string is stored in `_info` and handed to `ctor` unchanged. -/
def tfCustomInit (dirExists : Bool) (ctor : String → Except String (List String))
    (dataset_dir : String) (dataset_name : Option String) (color_mode : String) :
    Except TFError TFInitState :=
  if !dirExists then
    .error (.fileNotFound ("The dataset directory (" ++ dataset_dir ++ ") does not exist"))
  else
    let name := match dataset_name with
      | some n => if n = "" then basename dataset_dir else n
      | none => basename dataset_dir
    match ctor color_mode with
    | .error m => .error (.valueError m)
    | .ok cls =>
      .ok { info_name := name, info_dataset_dir := dataset_dir,
            info_color_mode := color_mode, class_names := cls,
            state := freshTFState, validation_type := "recall" }

/-- C4: when `dataset_dir` does not exist, the constructor raises
`FileNotFoundError` with a message naming the bad directory, and the native
dataset constructor is never consulted (the result is the same for every
`ctor`), so no dataset object is created. -/
theorem init_missing_dir_raises (ctor : String → Except String (List String))
    (dataset_dir : String) (dataset_name : Option String) (color_mode : String) :
    tfCustomInit false ctor dataset_dir dataset_name color_mode =
      .error (.fileNotFound
        ("The dataset directory (" ++ dataset_dir ++ ") does not exist")) := rfl

/-- A probing stand-in for `image_dataset_from_directory` that accepts any
color mode and records which color mode it was invoked with. -/
def probeCtor : String → Except String (List String) :=
  fun cm => .ok ["invoked-with-" ++ cm]

/-- Counterexample for C6: "purple" is not one of the documented color modes,
yet the constructor raises nothing: it invokes the native dataset
constructor with the raw invalid color mode and returns successfully, so no
validation happens before the native construction. -/
theorem color_mode_not_validated_cex :
    "purple" ∉ (["greyscale", "rgb", "rgba"] : List String) ∧
    tfCustomInit true probeCtor "/tmp/flower_photos" (some "flowers") "purple" =
      .ok { info_name := "flowers", info_dataset_dir := "/tmp/flower_photos",
            info_color_mode := "purple",
            class_names := ["invoked-with-purple"],
            state := freshTFState, validation_type := "recall" } :=
  ⟨by decide, rfl⟩

/-- C6 (amended): the constructor performs no color-mode validation of its
own; with an existing directory its outcome is exactly the outcome of the
native `image_dataset_from_directory` call on the unmodified `color_mode`
(a native `ValueError` propagates, a native success yields the constructed
object storing that color mode). -/
theorem color_mode_passthrough (ctor : String → Except String (List String))
    (dataset_dir name color_mode : String) (hname : name ≠ "") :
    tfCustomInit true ctor dataset_dir (some name) color_mode =
      match ctor color_mode with
      | .error m => .error (.valueError m)
      | .ok cls =>
        .ok { info_name := name, info_dataset_dir := dataset_dir,
              info_color_mode := color_mode, class_names := cls,
              state := freshTFState, validation_type := "recall" } := by
  simp [tfCustomInit, hname]

/-- Witness for C6's amended theorem, at the probing native constructor and
the invalid color mode "purple". -/
theorem color_mode_passthrough_witness :
    ("flowers" : String) ≠ "" ∧
    tfCustomInit true probeCtor "/tmp/flower_photos" (some "flowers") "purple" =
      .ok { info_name := "flowers", info_dataset_dir := "/tmp/flower_photos",
            info_color_mode := "purple",
            class_names := ["invoked-with-purple"],
            state := freshTFState, validation_type := "recall" } :=
  ⟨by decide,
   (color_mode_passthrough probeCtor "/tmp/flower_photos" "flowers" "purple"
      (by decide)).trans rfl⟩

/-! ## TorchvisionImageClassificationDataset constructor -/

/-- A Python exception escaping `TorchvisionImageClassificationDataset.__init__`:
`ValueError` with its message, `TypeError` (an unexpected keyword argument),
or `NameError` (an unbound local referenced in a `finally` block). -/
inductive PyExc where
  | typeError
  | valueError (msg : String)
  | nameError
  deriving DecidableEq, Repr

/-- A torchvision dataset class from the catalog, characterised by its
constructor signature: either it takes a `split=` keyword restricted to
`validSplits` (raising `ValueError` for other values and `TypeError` for a
`train=` keyword), or it takes a `train=` boolean keyword (raising
`TypeError` for a `split=` keyword).  `sizeOf` gives the length of each
named native split ("train", "val", "test"). -/
structure DatasetClass where
  hasSplitKw : Bool
  validSplits : List String
  sizeOf : String → Nat

/-- `dataset_class(dataset_dir, split=s, download=True)`: returns the length
of the constructed dataset, or the exception torchvision raises. -/
def DatasetClass.ctorWithSplit (c : DatasetClass) (s : String) : Except PyExc Nat :=
  if c.hasSplitKw then
    if s ∈ c.validSplits then .ok (c.sizeOf s)
    else .error (.valueError ("Unknown value for argument split: " ++ s))
  else .error .typeError

/-- `dataset_class(dataset_dir, train=b, download=True)`. -/
def DatasetClass.ctorWithTrain (c : DatasetClass) (b : Bool) : Except PyExc Nat :=
  if c.hasSplitKw then .error .typeError
  else .ok (c.sizeOf (if b then "train" else "test"))

/-- An element of the `split` argument list: a Python string or a value of
some other type (the code checks `isinstance(s, str)`). -/
inductive PyElem where
  | str (s : String)
  | nonStr
  deriving DecidableEq, Repr

/-- The `split` constructor argument: a Python list, or a value of some
other type (the code checks `isinstance(split, list)`). -/
inductive PySplitArg where
  | notList
  | list (xs : List PyElem)
  deriving DecidableEq, Repr

/-- The module-level `DATASETS` catalog. -/
def DATASETS : List String :=
  ["CIFAR10", "Food101", "CIFAR100", "Country211", "DTD", "FGVCAircraft", "RenderedSST2"]

/-- Python's `"Dataset name is not supported. Choose from: {}".format(DATASETS)`. -/
def datasetsMsg : String :=
  "Dataset name is not supported. Choose from: [\x27CIFAR10\x27, \x27Food101\x27, " ++
    "\x27CIFAR100\x27, \x27Country211\x27, \x27DTD\x27, \x27FGVCAircraft\x27, " ++
    "\x27RenderedSST2\x27]"

/-- The per-element test of the `for s in split` loop:
`isinstance(s, str) and s in ['train', 'validation', 'test']`. -/
def validSplitElem : PyElem → Bool
  | .str s => s ∈ (["train", "validation", "test"] : List String)
  | .nonStr => false

/-- Lines 38-42: check that `split` is a list whose elements are all among
'train', 'validation', 'test', and return the strings; otherwise raise the
source's `ValueError`s.  (The loop raises the same message at the first bad
element, so checking all elements is observationally equivalent.) -/
def validateSplit : PySplitArg → Except PyExc (List String)
  | .notList => .error (.valueError "Value of split argument must be a list.")
  | .list xs =>
    if xs.all validSplitElem then
      .ok (xs.map fun e => match e with | .str s => s | .nonStr => "")
    else
      .error (.valueError "Split argument can only contain these strings: train, validation, test.")

/-- Python truthiness of `self._dataset`: a dataset object is truthy when it
is bound and `len` of it is nonzero. -/
def datasetTruthy : Option Nat → Bool
  | some n => n != 0
  | none => false

/-- The split bookkeeping fields built up by the multi-split branch:
`_dataset` is modelled by its length, each `_*_indices` range by its
(start, length) pair. -/
structure SplitAcc where
  dataset : Option Nat
  train_indices : Option (Nat × Nat)
  validation_indices : Option (Nat × Nat)
  test_indices : Option (Nat × Nat)
  deriving DecidableEq, Repr

/-- Lines 79-84: the `if 'train' in split` branch of the multi-split case:
construct the train part (falling back from `split='train'` to `train=True`
on `TypeError`) and set `_train_indices = range(len(self._dataset))`. -/
def trainBranch (c : DatasetClass) (split : List String) (acc : SplitAcc) :
    Except PyExc SplitAcc :=
  if "train" ∈ split then
    match c.ctorWithSplit "train" with
    | .ok n => .ok { acc with dataset := some n, train_indices := some (0, n) }
    | .error .typeError =>
      match c.ctorWithTrain true with
      | .ok n => .ok { acc with dataset := some n, train_indices := some (0, n) }
      | .error e => .error e
    | .error e => .error e
  else .ok acc

/-- Lines 85-97: the `if 'validation' in split` branch: construct the
validation part with `split='val'`; a `ValueError` from the class is
converted to `ValueError('No validation split was found for this dataset: ...')`,
while any other exception (`TypeError`) propagates; on success either
concatenate onto a truthy `_dataset` or replace a falsy one. -/
def validationBranch (c : DatasetClass) (split : List String) (name : String)
    (acc : SplitAcc) : Except PyExc SplitAcc :=
  if "validation" ∈ split then
    match c.ctorWithSplit "val" with
    | .ok v =>
      if datasetTruthy acc.dataset then
        let n := acc.dataset.getD 0
        .ok { acc with dataset := some (n + v), validation_indices := some (n, v) }
      else
        .ok { acc with dataset := some v, validation_indices := some (0, v) }
    | .error (.valueError _) =>
      .error (.valueError ("No validation split was found for this dataset: " ++ name))
    | .error e => .error e
  else .ok acc

/-- Lines 98-114: the `if 'test' in split` branch.  The construction attempt
falls back from `split='test'` to `train=False` on `TypeError`, converting a
`ValueError` of the fallback to the descriptive `ValueError`; the `finally`
block then runs unconditionally: when the attempt failed, `test_data` is
unbound there, so `len(test_data)` raises `NameError` (UnboundLocalError),
replacing the in-flight exception.  On success, a truthy `_dataset` is
concatenated and `_test_indices` set; a falsy one is replaced and (line 114,
as written in the source) `_validation_indices` — not `_test_indices` — is
assigned `range(test_length)`. -/
def testBranch (c : DatasetClass) (split : List String) (name : String)
    (acc : SplitAcc) : Except PyExc SplitAcc :=
  if "test" ∈ split then
    let attempt : Except PyExc Nat :=
      match c.ctorWithSplit "test" with
      | .ok te => .ok te
      | .error .typeError =>
        match c.ctorWithTrain false with
        | .ok te => .ok te
        | .error (.valueError _) =>
          .error (.valueError ("No test split was found for this dataset: " ++ name))
        | .error e => .error e
      | .error e => .error e
    match attempt with
    | .ok te =>
      if datasetTruthy acc.dataset then
        let n := acc.dataset.getD 0
        .ok { acc with dataset := some (n + te), test_indices := some (n, te) }
      else
        .ok { acc with dataset := some te, validation_indices := some (0, te) }
    | .error _ => .error .nameError
  else .ok acc

/-- The whole multi-split else-branch (lines 77-115), in source order. -/
def multiSplitInit (c : DatasetClass) (split : List String) (name : String) :
    Except PyExc SplitAcc :=
  match trainBranch c split ⟨none, none, none, none⟩ with
  | .error e => .error e
  | .ok acc1 =>
    match validationBranch c split name acc1 with
    | .error e => .error e
    | .ok acc2 => testBranch c split name acc2

/-- Lines 56-76: the single-split branch; returns the length of `_dataset`
(or `none` when no branch assigned it). -/
def singleSplitInit (c : DatasetClass) (s : String) (name : String) :
    Except PyExc (Option Nat) :=
  if s = "train" then
    match c.ctorWithSplit "train" with
    | .ok n => .ok (some n)
    | .error .typeError =>
      match c.ctorWithTrain true with
      | .ok n => .ok (some n)
      | .error e => .error e
    | .error e => .error e
  else if s = "validation" then
    match c.ctorWithSplit "val" with
    | .ok n => .ok (some n)
    | .error .typeError =>
      .error (.valueError ("No validation split was found for this dataset: " ++ name))
    | .error e => .error e
  else if s = "test" then
    match c.ctorWithSplit "test" with
    | .ok n => .ok (some n)
    | .error .typeError =>
      match c.ctorWithTrain false with
      | .ok n => .ok (some n)
      | .error .typeError =>
        .error (.valueError ("No test split was found for this dataset: " ++ name))
      | .error e => .error e
    | .error e => .error e
  else .ok none

/-- The observable result of a successful
`TorchvisionImageClassificationDataset.__init__`: `_dataset` (by length),
the three index ranges as (start, length), `_validation_type`, and the
`'size'` entry of `_info` (`len(self._dataset)`). -/
structure TVState where
  dataset : Option Nat
  train_indices : Option (Nat × Nat)
  validation_indices : Option (Nat × Nat)
  test_indices : Option (Nat × Nat)
  validation_type : String
  info_size : Nat
  deriving DecidableEq, Repr

/-- `TorchvisionImageClassificationDataset.__init__(dataset_dir,
dataset_name, split, ...)`: argument validation (lines 38-44), then the
single- or multi-split construction, then `self._info['size'] =
len(self._dataset)` (which raises `TypeError` when `_dataset` is still
`None`). -/
def torchvisionInit (c : DatasetClass) (splitArg : PySplitArg) (name : String) :
    Except PyExc TVState :=
  match validateSplit splitArg with
  | .error e => .error e
  | .ok split =>
    if name ∉ DATASETS then .error (.valueError datasetsMsg)
    else
      match split with
      | [s] =>
        match singleSplitInit c s name with
        | .error e => .error e
        | .ok (some n) =>
          .ok { dataset := some n, train_indices := none, validation_indices := none,
                test_indices := none, validation_type := "recall", info_size := n }
        | .ok none => .error .typeError
      | _ =>
        match multiSplitInit c split name with
        | .error e => .error e
        | .ok acc =>
          match acc.dataset with
          | some n =>
            .ok { dataset := some n, train_indices := acc.train_indices,
                  validation_indices := acc.validation_indices,
                  test_indices := acc.test_indices,
                  validation_type := "defined_split", info_size := n }
          | none => .error .typeError

/-- CIFAR10-style catalog entry: constructor takes `train=` (no `split=`
keyword); 50000 train images, 10000 test images. -/
def cCIFAR10 : DatasetClass :=
  ⟨false, [], fun s => if s = "train" then 50000 else 10000⟩

/-- Food101-style catalog entry: constructor takes `split=` with valid
values 'train' and 'test' (no 'val'); 75750 train and 25250 test images. -/
def cFood101 : DatasetClass :=
  ⟨true, ["train", "test"], fun s => if s = "train" then 75750 else 25250⟩

/-- DTD-style catalog entry: constructor takes `split=` with valid values
'train', 'val' and 'test', each of length 1880. -/
def cDTD : DatasetClass :=
  ⟨true, ["train", "val", "test"], fun _ => 1880⟩

/-- C5: the constructor's argument validation raises the source's
`ValueError`s — for a non-list `split`, for a `split` element that is not
one of 'train'/'validation'/'test', and for a `dataset_name` outside the
`DATASETS` catalog — and it does so before any dataset is constructed: the
result is the same for every dataset class `c`. -/
theorem torchvision_arg_validation (c : DatasetClass) (xs : List PyElem) (name : String) :
    (torchvisionInit c .notList name =
      .error (.valueError "Value of split argument must be a list.")) ∧
    (¬ xs.all validSplitElem →
      torchvisionInit c (.list xs) name =
        .error (.valueError
          "Split argument can only contain these strings: train, validation, test.")) ∧
    (xs.all validSplitElem → name ∉ DATASETS →
      torchvisionInit c (.list xs) name = .error (.valueError datasetsMsg)) := by
  refine ⟨rfl, ?_, ?_⟩
  · intro hbad
    simp [torchvisionInit, validateSplit, hbad]
  · intro hok hname
    simp [torchvisionInit, validateSplit, hok, hname]

/-- Witness for C5: the three validation errors at concrete inputs. -/
theorem torchvision_arg_validation_witness :
    (torchvisionInit cCIFAR10 .notList "CIFAR10" =
      .error (.valueError "Value of split argument must be a list.")) ∧
    (torchvisionInit cCIFAR10 (.list [.str "train", .nonStr]) "CIFAR10" =
      .error (.valueError
        "Split argument can only contain these strings: train, validation, test.")) ∧
    (torchvisionInit cCIFAR10 (.list [.str "train"]) "MNIST" =
      .error (.valueError datasetsMsg)) :=
  ⟨(torchvision_arg_validation cCIFAR10 [] "CIFAR10").1,
   (torchvision_arg_validation cCIFAR10 [.str "train", .nonStr] "CIFAR10").2.1
      (by decide),
   (torchvision_arg_validation cCIFAR10 [.str "train"] "MNIST").2.2
      (by decide) (by decide)⟩

/-- C2, evaluated at the failing input `dataset_name='Food101'`,
`split=['test', 'test']` (a valid argument list of length greater than one):
the constructor completes, but `_test_indices` is left `None` while
`_validation_indices` — never requested — is set to `range(25250)`; the
claim requires the test indices to be `[0, len(test part))`.  Line 114 of
the source assigns `self._validation_indices` where the parallel structure
of the branch assigns `self._test_indices`. -/
theorem split_indices_bug_eval :
    torchvisionInit cFood101 (.list [.str "test", .str "test"]) "Food101" =
      .ok { dataset := some 25250, train_indices := none,
            validation_indices := some (0, 25250), test_indices := none,
            validation_type := "defined_split", info_size := 25250 } := rfl

/-- Counterexample for C9: CIFAR10 is in the catalog and offers no
validation split (its constructor takes `train=`, not `split=`), yet
requesting `split=['train', 'validation']` makes the constructor raise
`TypeError` — the multi-split branch catches only `ValueError` — so an
exception type other than `ValueError` escapes. -/
theorem missing_split_exception_cex :
    torchvisionInit cCIFAR10 (.list [.str "train", .str "validation"]) "CIFAR10" =
      .error .typeError := rfl

/-- C9 (amended): when the requested validation split is unavailable, the
exception depends on the branch and on how the native class signals it.
Single-element split list: a class without the `split=` keyword (TypeError)
yields `ValueError('No validation split was found for this dataset: ...')`
naming the dataset, while a class whose `split=` keyword rejects 'val'
raises its own `ValueError`, which propagates unchanged without naming the
dataset.  Multi-element split list: the class `ValueError` is converted to
the descriptive `ValueError` naming the dataset, but the `TypeError` of a
class without the `split=` keyword escapes the constructor as `TypeError`. -/
theorem missing_split_behavior (c : DatasetClass) (name : String)
    (hname : name ∈ DATASETS) :
    (c.hasSplitKw = false →
      torchvisionInit c (.list [.str "validation"]) name =
        .error (.valueError ("No validation split was found for this dataset: " ++ name))) ∧
    (c.hasSplitKw = true → "val" ∉ c.validSplits →
      torchvisionInit c (.list [.str "validation"]) name =
        .error (.valueError "Unknown value for argument split: val")) ∧
    (c.hasSplitKw = false →
      torchvisionInit c (.list [.str "train", .str "validation"]) name =
        .error .typeError) ∧
    (c.hasSplitKw = true → "train" ∈ c.validSplits → "val" ∉ c.validSplits →
      torchvisionInit c (.list [.str "train", .str "validation"]) name =
        .error (.valueError ("No validation split was found for this dataset: " ++ name))) := by
  refine ⟨?_, ?_, ?_, ?_⟩
  · intro hkw
    simp [torchvisionInit, validateSplit, validSplitElem, hname, singleSplitInit,
      DatasetClass.ctorWithSplit, hkw]
  · intro hkw hval
    simp [torchvisionInit, validateSplit, validSplitElem, hname, singleSplitInit,
      DatasetClass.ctorWithSplit, hkw, hval]
  · intro hkw
    simp [torchvisionInit, validateSplit, validSplitElem, hname, multiSplitInit,
      trainBranch, validationBranch, DatasetClass.ctorWithSplit,
      DatasetClass.ctorWithTrain, hkw]
  · intro hkw htrain hval
    simp [torchvisionInit, validateSplit, validSplitElem, hname, multiSplitInit,
      trainBranch, validationBranch, DatasetClass.ctorWithSplit,
      DatasetClass.ctorWithTrain, hkw, htrain, hval]

/-- Witness for C9's amended theorem: CIFAR10 (no `split=` keyword) and
Food101 (`split=` without 'val') at both branch shapes. -/
theorem missing_split_behavior_witness :
    (torchvisionInit cCIFAR10 (.list [.str "validation"]) "CIFAR10" =
      .error (.valueError "No validation split was found for this dataset: CIFAR10")) ∧
    (torchvisionInit cFood101 (.list [.str "validation"]) "Food101" =
      .error (.valueError "Unknown value for argument split: val")) ∧
    (torchvisionInit cCIFAR10 (.list [.str "train", .str "validation"]) "CIFAR10" =
      .error .typeError) ∧
    (torchvisionInit cFood101 (.list [.str "train", .str "validation"]) "Food101" =
      .error (.valueError "No validation split was found for this dataset: Food101")) :=
  ⟨(missing_split_behavior cCIFAR10 "CIFAR10" (by decide)).1 rfl,
   (missing_split_behavior cFood101 "Food101" (by decide)).2.1 rfl (by decide),
   (missing_split_behavior cCIFAR10 "CIFAR10" (by decide)).2.2.1 rfl,
   (missing_split_behavior cFood101 "Food101" (by decide)).2.2.2 rfl
      (by decide) (by decide)⟩

/-! ## Model factory and model wrapper (modelled from the spec) -/

/-- The use-case keys of the registry (spec glossary: image classification,
text classification, question answering). -/
def useCaseTypes : List String :=
  ["image_classification", "text_classification", "question_answering"]

/-- The supported framework keys (spec glossary: TensorFlow or PyTorch). -/
def frameworkTypes : List String := ["tensorflow", "pytorch"]

/-- A per-framework metadata dictionary for one model: framework key paired
with its metadata (hub identifier, input size, ...), kept opaque as a
string blob. -/
abbrev FrameworkDict := List (String × String)

/-- The models of one use case: model name paired with its per-framework
metadata dictionary. -/
abbrev ModelsOfUseCase := List (String × FrameworkDict)

/-- Modelled from the spec: the static model registry of `model_factory`,
which is not among the sources (only its unit tests are).  Spec section 3:
"Registry: static mapping from (use case, model name) to per-framework
metadata dictionaries (hub identifier, input size)." -/
def Registry : Type := String → ModelsOfUseCase

/-- The framework filter of `get_supported_models`: with a framework given,
each model's dictionary is restricted to that framework's key, and models
with no entry for it are dropped (the unit test requires each surviving
model dictionary to have exactly the one framework key). -/
def filterByFramework (models : ModelsOfUseCase) : Option String → ModelsOfUseCase
  | none => models
  | some f => models.filterMap fun p =>
      let d := p.2.filter fun q => q.1 = f
      if d.isEmpty then none else some (p.1, d)

/-- Validation of the framework argument; spec section 8: "Unknown
framework/use case strings raise `ValueError` with a message naming the bad
value" (message shape from the unit tests). -/
def checkFramework : Option String → Except String Unit
  | none => .ok ()
  | some f =>
    if f ∈ frameworkTypes then .ok ()
    else .error ("Unsupported framework: " ++ f)

/-- Validation of the use-case argument (see `checkFramework`). -/
def checkUseCase : Option String → Except String Unit
  | none => .ok ()
  | some u =>
    if u ∈ useCaseTypes then .ok ()
    else .error ("Unsupported use case: " ++ u)

/-- Modelled from the spec: `model_factory.get_supported_models(framework,
use_case)`, which is not among the sources (only its unit tests are).  Spec
sections 6 and 8: optional framework and use-case filters; an invalid filter
value raises `ValueError`; filtering by use case returns a dictionary with
exactly that use-case key, filtering by framework keeps only entries for
that framework, and with no filter there is a key for every use case. -/
def get_supported_models (reg : Registry) (framework use_case : Option String) :
    Except String (List (String × ModelsOfUseCase)) :=
  match checkFramework framework with
  | .error e => .error e
  | .ok _ =>
    match checkUseCase use_case with
    | .error e => .error e
    | .ok _ =>
      let ucs := match use_case with
        | some u => [u]
        | none => useCaseTypes
      .ok (ucs.map fun u => (u, filterByFramework (reg u) framework))

/-- Every framework key occurring anywhere in a `get_supported_models`
result equals `f`. -/
def onlyFrameworkKeys (r : List (String × ModelsOfUseCase)) (f : String) : Prop :=
  ∀ uc models, (uc, models) ∈ r → ∀ m d, (m, d) ∈ models →
    ∀ fw meta, (fw, meta) ∈ d → fw = f

theorem filterByFramework_only (models : ModelsOfUseCase) (f : String)
    (m : String) (d : FrameworkDict)
    (hmem : (m, d) ∈ filterByFramework models (some f)) :
    ∀ fw meta, (fw, meta) ∈ d → fw = f := by
  intro fw meta hfw
  simp only [filterByFramework, List.mem_filterMap] at hmem
  obtain ⟨p, hpmem, hp⟩ := hmem
  by_cases hemp : (p.2.filter fun q => q.1 = f).isEmpty
  · rw [if_pos hemp] at hp
    exact absurd hp (by simp)
  · rw [if_neg hemp] at hp
    have hp2 := Option.some.inj hp
    have h2 : (p.2.filter fun q => q.1 = f) = d := congrArg Prod.snd hp2
    subst h2
    have := (List.mem_filter.mp hfw).2
    simpa using this

/-- C7: for every registry, filtering by a (supported) framework returns a
dictionary in which every model entry carries only that framework's key;
filtering by a (supported) use case returns a dictionary with exactly one
key, that use case; and with no filter the result has a key for every use
case. -/
theorem get_supported_models_filter_spec (reg : Registry) (f u : String)
    (hf : f ∈ frameworkTypes) (hu : u ∈ useCaseTypes) :
    (∃ r, get_supported_models reg (some f) (some u) = .ok r ∧
      onlyFrameworkKeys r f ∧ r.map Prod.fst = [u]) ∧
    (∃ r, get_supported_models reg (some f) none = .ok r ∧
      onlyFrameworkKeys r f ∧ r.map Prod.fst = useCaseTypes) ∧
    (∃ r, get_supported_models reg none (some u) = .ok r ∧
      r.map Prod.fst = [u]) ∧
    (∃ r, get_supported_models reg none none = .ok r ∧
      r.map Prod.fst = useCaseTypes) := by
  have hcf : checkFramework (some f) = .ok () := by simp [checkFramework, hf]
  have hcu : checkUseCase (some u) = .ok () := by simp [checkUseCase, hu]
  have honly : ∀ ucs : List String,
      onlyFrameworkKeys (ucs.map fun u0 => (u0, filterByFramework (reg u0) (some f))) f := by
    intro ucs uc models hmem m d hmd fw meta hfw
    simp only [List.mem_map] at hmem
    obtain ⟨u0, hu0, h⟩ := hmem
    have h2 : models = filterByFramework (reg u0) (some f) :=
      (congrArg Prod.snd h).symm
    exact filterByFramework_only (reg u0) f m d (h2 ▸ hmd) fw meta hfw
  refine ⟨⟨[(u, filterByFramework (reg u) (some f))], ?_, ?_, ?_⟩,
         ⟨useCaseTypes.map (fun u0 => (u0, filterByFramework (reg u0) (some f))), ?_, ?_, ?_⟩,
         ⟨[(u, reg u)], ?_, ?_⟩,
         ⟨useCaseTypes.map (fun u0 => (u0, reg u0)), ?_, ?_⟩⟩
  · simp [get_supported_models, hcf, hcu]
  · exact honly [u]
  · simp
  · simp [get_supported_models, hcf, checkUseCase]
  · exact honly useCaseTypes
  · rfl
  · simp [get_supported_models, checkFramework, hcu, filterByFramework]
  · simp
  · simp [get_supported_models, checkFramework, checkUseCase, filterByFramework]
  · rfl

/-- A small concrete registry with an image-classification model present for
both frameworks and a text model for pytorch only. -/
def regExample : Registry := fun u =>
  if u = "image_classification" then
    [("efficientnet_b0",
      [("tensorflow", "TFHub;224"), ("pytorch", "torchvision;224")])]
  else if u = "text_classification" then
    [("bert_base", [("pytorch", "huggingface")])]
  else []

/-- Witness for C7 at a concrete registry, framework and use case. -/
theorem get_supported_models_filter_spec_witness :
    (∃ r, get_supported_models regExample (some "tensorflow")
        (some "image_classification") = .ok r ∧
      onlyFrameworkKeys r "tensorflow" ∧
      r.map Prod.fst = ["image_classification"]) ∧
    (∃ r, get_supported_models regExample (some "tensorflow") none = .ok r ∧
      onlyFrameworkKeys r "tensorflow" ∧ r.map Prod.fst = useCaseTypes) ∧
    (∃ r, get_supported_models regExample none (some "image_classification") = .ok r ∧
      r.map Prod.fst = ["image_classification"]) ∧
    (∃ r, get_supported_models regExample none none = .ok r ∧
      r.map Prod.fst = useCaseTypes) :=
  get_supported_models_filter_spec regExample "tensorflow" "image_classification"
    (by decide) (by decide)

/-- The argument record of one `model.fit(dataset, epochs=..., shuffle=...,
callbacks=...)` call on the wrapped framework model. -/
structure FitCall (D R : Type) where
  fit_dataset : D
  epochs : Int
  shuffle : Bool
  callbacks : List String

/-- Modelled from the spec: the model wrapper's `train` method, which is not
among the sources (only its unit test is).  Spec section 4.3: "`train`
forwards a dataset's native handle and training hyperparameters to the
framework's fit call with epoch count, shuffle flag, and callback list,
returning whatever the framework's fit call returns"; the unit test
additionally requires the callback list passed to `fit` to be non-empty
(a checkpoint callback rooted at `output_dir`). -/
def train {D R : Type} (fit : FitCall D R → R) (dataset : D) (epochs : Int)
    (shuffle : Bool) (output_dir : String) : R :=
  fit { fit_dataset := dataset, epochs := epochs, shuffle := shuffle,
        callbacks := ["ModelCheckpoint:" ++ output_dir] }

/-- C8: `train` makes exactly one `fit` call, passing the dataset, the
integer epoch count, the boolean shuffle flag and a non-empty callback
list, and returns exactly what `fit` returns. -/
theorem train_forwards_to_fit {D R : Type} (fit : FitCall D R → R)
    (dataset : D) (epochs : Int) (shuffle : Bool) (output_dir : String) :
    ∃ args : FitCall D R, train fit dataset epochs shuffle output_dir = fit args ∧
      args.fit_dataset = dataset ∧ args.epochs = epochs ∧
      args.shuffle = shuffle ∧ args.callbacks ≠ [] :=
  ⟨_, rfl, rfl, rfl, rfl, by simp⟩
